import Mathlib

/-
Verification of the WebGLGrid renderer (infinite-wrap 2D image grid).
The definitions below are a shallow embedding of the TypeScript source:
`WebGLGrid` and its per-item / per-texture helper objects.  Positions,
sizes and zoom factors are modelled as rationals; JavaScript's
`Math.round` is modelled as round-half-up.
-/

/-- JavaScript `Math.round`: round half away from zero towards +infinity,
i.e. `⌊q + 1/2⌋`. -/
def jsRound (q : ℚ) : ℤ := ⌊q + 1/2⌋

/-- A 2-d delta, as passed to `item.update({x, y})`. -/
structure Vec2 where
  x : ℚ
  y : ℚ
deriving DecidableEq, Repr

/-- The per-item wrap interval, source field `item.bounds`
(`{left, top, right, bottom}`). -/
structure Bounds where
  left : ℚ
  top : ℚ
  right : ℚ
  bottom : ℚ
deriving DecidableEq, Repr

/-- The mutable draw state of a grid item, source field
`item.textureObject` (only the fields the claims mention). -/
structure TextureObject where
  x : ℚ
  y : ℚ
  displayWidth : ℚ
  displayHeight : ℚ
  opacity : ℚ
deriving DecidableEq, Repr

/-- One grid item (tile), from `WebGLGrid.createGridItem`.  `itemWidth` /
`itemHeight` are the wrap steps set by `updateBounds`
(`ITEM_WIDTH + HORIZONTAL_GAP`, `ITEM_HEIGHT + VERTICAL_GAP` at the call
sites). -/
structure GridItem where
  textureWidth : ℚ
  textureHeight : ℚ
  textureObject : TextureObject
  bounds : Bounds
  itemWidth : ℚ
  itemHeight : ℚ
deriving DecidableEq, Repr

/-- Total content dimensions, the value returned by
`getTotalDimensionsItems`. -/
structure Dimensions where
  width : ℚ
  height : ℚ
deriving DecidableEq, Repr

/-- Source `item.updateSize(x, y, width)`: sets position, display width,
and display height from the texture's aspect;
`displayHeight = Math.round(width * textureHeight / textureWidth)`.
Returns the updated item together with the source's return value
`x + displayWidth`. -/
def GridItem.updateSize (it : GridItem) (x y width : ℚ) : GridItem × ℚ :=
  let t := it.textureObject
  let it' := { it with textureObject :=
    { t with
      opacity := 1
      x := x
      y := y
      displayWidth := width
      displayHeight := ((jsRound (width * it.textureHeight / it.textureWidth) : ℤ) : ℚ) } }
  (it', x + width)

/-- Source `item.updateBounds(dimensions, itemWidth, itemHeight, offsetX,
offsetY)`: sets the wrap interval and the wrap steps. -/
def GridItem.updateBounds (it : GridItem) (dims : Dimensions)
    (itemWidth itemHeight offsetX offsetY : ℚ) : GridItem :=
  { it with
    bounds :=
      { left := -offsetX
        right := dims.width - offsetX
        top := -offsetY
        bottom := dims.height - offsetY }
    itemWidth := itemWidth
    itemHeight := itemHeight }

/-- The one-shot wrap correction `item.update` applies per axis: if the
position crosses at/below the lower bound it is re-injected from the
upper side offset by the overshoot (minus one item span), and
symmetrically at/above the upper bound. -/
def wrapAxis (pos lower upper span : ℚ) : ℚ :=
  if pos ≤ lower then upper - (lower - pos) - span
  else if pos ≥ upper then lower - (upper - pos) + span
  else pos

/-- Source `item.update(delta)`: add the delta, then apply the wrap
correction independently per axis. -/
def GridItem.update (it : GridItem) (delta : Vec2) : GridItem :=
  { it with textureObject :=
    { it.textureObject with
      x := wrapAxis (it.textureObject.x + delta.x) it.bounds.left it.bounds.right it.itemWidth
      y := wrapAxis (it.textureObject.y + delta.y) it.bounds.top it.bounds.bottom it.itemHeight } }

/-- A whole sequence of `update(delta)` calls. -/
def GridItem.updates (it : GridItem) (ds : List Vec2) : GridItem :=
  ds.foldl GridItem.update it

/-- The wrap invariant claimed by the spec: the item's position lies in
the half-open wrap interval on both axes. -/
def inBoundsItem (it : GridItem) : Prop :=
  it.bounds.left ≤ it.textureObject.x ∧ it.textureObject.x < it.bounds.right ∧
  it.bounds.top ≤ it.textureObject.y ∧ it.textureObject.y < it.bounds.bottom

instance (it : GridItem) : Decidable (inBoundsItem it) := by
  unfold inBoundsItem; infer_instance

/-- Per-call delta bound under which the one-shot wrap correction stays
inside the interval: the overshoot may not exceed the interval width
minus one item span. -/
def boundedDelta (it : GridItem) (d : Vec2) : Prop :=
  |d.x| ≤ (it.bounds.right - it.bounds.left) - it.itemWidth ∧
  |d.y| ≤ (it.bounds.bottom - it.bounds.top) - it.itemHeight

lemma wrapAxis_mem (lower upper span x d : ℚ)
    (hspan : 0 < span) (hspanle : span ≤ upper - lower)
    (hxl : lower ≤ x) (hxu : x < upper)
    (hd : |d| ≤ (upper - lower) - span) :
    lower ≤ wrapAxis (x + d) lower upper span ∧
      wrapAxis (x + d) lower upper span < upper := by
  obtain ⟨hd1, hd2⟩ := abs_le.mp hd
  unfold wrapAxis
  split_ifs with h1 h2
  · constructor <;> linarith
  · constructor <;> linarith
  · push_neg at h1 h2
    constructor <;> linarith

lemma GridItem.update_bounds_eq (it : GridItem) (d : Vec2) :
    (it.update d).bounds = it.bounds := rfl

lemma GridItem.update_itemWidth_eq (it : GridItem) (d : Vec2) :
    (it.update d).itemWidth = it.itemWidth := rfl

lemma GridItem.update_itemHeight_eq (it : GridItem) (d : Vec2) :
    (it.update d).itemHeight = it.itemHeight := rfl

lemma GridItem.update_mem (it : GridItem) (d : Vec2)
    (hW : 0 < it.itemWidth) (hWle : it.itemWidth ≤ it.bounds.right - it.bounds.left)
    (hH : 0 < it.itemHeight) (hHle : it.itemHeight ≤ it.bounds.bottom - it.bounds.top)
    (h0 : inBoundsItem it) (hd : boundedDelta it d) :
    inBoundsItem (it.update d) := by
  obtain ⟨hx1, hx2, hy1, hy2⟩ := h0
  obtain ⟨hdx, hdy⟩ := hd
  have hx := wrapAxis_mem it.bounds.left it.bounds.right it.itemWidth
    it.textureObject.x d.x hW hWle hx1 hx2 hdx
  have hy := wrapAxis_mem it.bounds.top it.bounds.bottom it.itemHeight
    it.textureObject.y d.y hH hHle hy1 hy2 hdy
  exact ⟨hx.1, hx.2, hy.1, hy.2⟩

/-- Claim C1 (amended): for any grid item whose wrap interval is at least
one item span wide on each axis and whose position starts inside the
interval, a sequence of `update(delta)` calls keeps the position in the
half-open wrap interval after each call, provided every delta's
per-axis magnitude is at most the interval width minus the item span.
(For larger deltas the one-shot wrap correction can overshoot: see the
counterexample.) -/
theorem C1_wrap_invariant_bounded_deltas (it : GridItem) (ds : List Vec2)
    (hW : 0 < it.itemWidth) (hWle : it.itemWidth ≤ it.bounds.right - it.bounds.left)
    (hH : 0 < it.itemHeight) (hHle : it.itemHeight ≤ it.bounds.bottom - it.bounds.top)
    (h0 : inBoundsItem it)
    (hd : ∀ d ∈ ds, boundedDelta it d) :
    inBoundsItem (it.updates ds) := by
  induction ds generalizing it with
  | nil => exact h0
  | cons d ds ih =>
    have hstep := GridItem.update_mem it d hW hWle hH hHle h0 (hd d (List.mem_cons_self d ds))
    have hb := GridItem.update_bounds_eq it d
    have hw := GridItem.update_itemWidth_eq it d
    have hh := GridItem.update_itemHeight_eq it d
    refine ih (it.update d) ?_ ?_ ?_ ?_ hstep ?_
    · rw [hw]; exact hW
    · rw [hw, hb]; exact hWle
    · rw [hh]; exact hH
    · rw [hh, hb]; exact hHle
    · intro e he
      have := hd e (List.mem_cons_of_mem d he)
      unfold boundedDelta at this ⊢
      rw [hb, hw, hh]
      exact this

/-- The desktop-configuration item used in the C1 counterexample and the
C1 witness: a 79x30 grid at pixel ratio 1 on a 1000x800 canvas.  Content
dimensions are 7900x4500, the centering offsets 3445 and 1845, the wrap
steps 100 and 150; item 0 sits at (-3445, -1845) with bounds
[-3445, 4455) x [-1845, 2655). -/
def c1Item : GridItem :=
  GridItem.updateBounds
    { textureWidth := 90
      textureHeight := 140
      textureObject :=
        { x := -3445, y := -1845, displayWidth := 90, displayHeight := 140, opacity := 1 }
      bounds := { left := 0, top := 0, right := 0, bottom := 0 }
      itemWidth := 0
      itemHeight := 0 }
    { width := 7900, height := 4500 } 100 150 3445 1845

/-- Claim C1 counterexample: the claim fails for a very large delta.  The
item starts inside its wrap interval, but a single `update` with
`delta.x = 20000` lands at x = 8755, outside the interval
[-3445, 4455): the one-shot wrap correction does not reduce the
position modulo the interval. -/
theorem C1_counterexample :
    inBoundsItem c1Item ∧
    ¬ inBoundsItem (c1Item.update { x := 20000, y := 0 }) ∧
    (c1Item.update { x := 20000, y := 0 }).textureObject.x = 8755 := by
  refine ⟨?_, ?_, ?_⟩ <;>
    norm_num [c1Item, GridItem.updateBounds, GridItem.update, wrapAxis, inBoundsItem]

/-- Witness for C1: the amended theorem applied at the concrete desktop
item with two in-bound deltas. -/
theorem C1_wrap_invariant_bounded_deltas_witness :
    inBoundsItem (c1Item.updates [{ x := 50, y := -30 }, { x := -120, y := 3000 }]) := by
  apply C1_wrap_invariant_bounded_deltas
  · norm_num [c1Item, GridItem.updateBounds]
  · norm_num [c1Item, GridItem.updateBounds]
  · norm_num [c1Item, GridItem.updateBounds]
  · norm_num [c1Item, GridItem.updateBounds]
  · norm_num [c1Item, GridItem.updateBounds, inBoundsItem]
  · intro d hd
    fin_cases hd <;>
      norm_num [c1Item, GridItem.updateBounds, boundedDelta]

/-
Texture resources (`createImageTexture` and the `textureObj` it builds).
-/

/-- One hexadecimal digit, as accepted by the source's regex
`/^#?([a-f\d]{2})([a-f\d]{2})([a-f\d]{2})$/i`. -/
def isHexDigitChar (c : Char) : Bool :=
  c.isDigit || ('a' ≤ c && c ≤ 'f') || ('A' ≤ c && c ≤ 'F')

/-- Numeric value of a hexadecimal digit. -/
def hexDigitVal (c : Char) : ℕ :=
  if c.isDigit then c.toNat - '0'.toNat
  else if 'a' ≤ c && c ≤ 'f' then c.toNat - 'a'.toNat + 10
  else if 'A' ≤ c && c ≤ 'F' then c.toNat - 'A'.toNat + 10
  else 0

/-- Source `hexToRgb(hex)`: parse `#RRGGBB` (the `#` optional, case
insensitive); on no match return `{r: 0, g: 0, b: 0}`. -/
def hexToRgb (hex : String) : ℕ × ℕ × ℕ :=
  let cs := hex.toList
  let cs := if cs.head? = some '#' then cs.tail else cs
  match cs with
  | [a, b, c, d, e, f] =>
    if [a, b, c, d, e, f].all isHexDigitChar then
      (hexDigitVal a * 16 + hexDigitVal b,
       hexDigitVal c * 16 + hexDigitVal d,
       hexDigitVal e * 16 + hexDigitVal f)
    else (0, 0, 0)
  | _ => (0, 0, 0)

/-- An RGBA byte pixel, as uploaded by `gl.texImage2D` from a
`Uint8Array`. -/
structure Pixel where
  r : ℕ
  g : ℕ
  b : ℕ
  a : ℕ
deriving DecidableEq, Repr

/-- The texture handler object built by `createImageTexture`
(the source's `textureObj`), with the fields the claims mention.
`placeholder` is the pixel currently uploaded to the 1x1 GPU texture
handle (`none` while no handle exists). -/
structure TextureResource where
  source : String
  backgroundColor : String
  opacity : ℚ
  width : ℕ
  height : ℕ
  placeholder : Option Pixel
  r : ℚ
  g : ℚ
  b : ℚ
  isInit : Bool
  isLoaded : Bool
deriving DecidableEq, Repr

/-- Source `textureObj.createTexture()`: allocates the GPU texture,
converts the background color to normalized `r`, `g`, `b` fields, and
synchronously uploads a 1x1 pixel — the constant `Uint8Array([0, 0, 255,
255])`, independent of the background color. -/
def TextureResource.createTexture (t : TextureResource) : TextureResource :=
  let rgb := hexToRgb t.backgroundColor
  { t with
    r := (rgb.1 : ℚ) / 255
    g := (rgb.2.1 : ℚ) / 255
    b := (rgb.2.2 : ℚ) / 255
    placeholder := some { r := 0, g := 0, b := 255, a := 255 }
    width := 1
    height := 1 }

/-- Source `textureObj.load()`: if `isInit` is already set the call is a
no-op returning a resolved promise; otherwise it starts a new image
fetch/decode.  Returns the (unchanged) resource and the number of decode
attempts this call started.  Note the source never sets `isInit` or
checks `isLoaded` inside `load` itself. -/
def TextureResource.load (t : TextureResource) : TextureResource × ℕ :=
  if t.isInit then (t, 0) else (t, 1)

/-- The `load` event handler of each started decode: `updateTexture(img)`
(upload the decoded image into the same handle, set `isLoaded`) followed
by exactly one `callbackLoaded()` invocation.  Returns the number of
completion-callback invocations (always 1 per successful decode). -/
def TextureResource.completeLoad (t : TextureResource) (imgW imgH : ℕ) :
    TextureResource × ℕ :=
  ({ t with width := imgW, height := imgH, isLoaded := true }, 1)

/-- Source `createImageTexture(gl, source, backgroundColor, callback,
loadImmediately)`: build the handler object, call `createTexture()`, and
if `loadImmediately` (the default, used for standard textures; `false`
for HD textures) call `load()` once and then set `isInit = true`.
Returns the resource and the number of decode attempts started during
creation. -/
def createImageTexture (source backgroundColor : String)
    (loadImmediately : Bool := true) : TextureResource × ℕ :=
  let t0 : TextureResource :=
    { source := source
      backgroundColor := backgroundColor
      opacity := 0
      width := 1
      height := 1
      placeholder := none
      r := 0
      g := 0
      b := 0
      isInit := false
      isLoaded := false }
  let t1 := t0.createTexture
  if loadImmediately then
    let (t2, d) := t1.load
    ({ t2 with isInit := true }, d)
  else
    (t1, 0)

/-- Claim C2 (the code is wrong): two `load()` calls on a standard
resource built by `createImageTexture` start no decode beyond the one
from creation — but on an HD resource (`loadImmediately = false`, whose
`load()` the draw loop re-invokes every frame while `currentZoom > 8`)
each of the two `load()` calls starts its own decode, for two decode
attempts, and each successful decode fires the completion callback once,
for two callback invocations — not the claimed one of each. -/
theorem C2_hd_double_load_two_decodes :
    -- standard resource: creation decodes once, two further loads are no-ops
    (let (sd, d0) := createImageTexture "img-sd" "#336699"
     let (sd1, d1) := sd.load
     let (sd2, d2) := sd1.load
     d0 + d1 + d2 = 1 ∧ sd2.isInit = true) ∧
    -- HD resource: two loads start two decode attempts
    (let (hd, e0) := createImageTexture "img-hd" "#336699" false
     let (hd1, e1) := hd.load
     let (hd2, e2) := hd1.load
     e0 + e1 + e2 = 2 ∧ hd2.isInit = false ∧
     -- each successful decode invokes the callback exactly once,
     -- so two decodes mean two callback invocations
     (hd2.completeLoad 800 1200).2 = 1) := by
  constructor <;>
    simp [createImageTexture, TextureResource.createTexture,
      TextureResource.load, TextureResource.completeLoad]

/-
The fragment shader (`WebGLGrid.fragmentShader`), for the in-bounds
texcoord path.  It declares uniforms `u_r`, `u_g`, `u_b` (set from the
resource's background color) but its `main()` never reads them: the
pre-texture color is the fixed constant #0F0F0F.
-/

/-- GLSL `mix(x, y, a) = x * (1 - a) + y * a`, componentwise on RGB. -/
def glslMix (x y : ℚ × ℚ × ℚ) (a : ℚ) : ℚ × ℚ × ℚ :=
  (x.1 * (1 - a) + y.1 * a,
   x.2.1 * (1 - a) + y.2.1 * a,
   x.2.2 * (1 - a) + y.2.2 * a)

/-- The shader's fixed `colorBackground = vec4(0.0588, 0.0588, 0.0588,
1.0)` (#0F0F0F), RGB part. -/
def shaderColorBackground : ℚ × ℚ × ℚ := (588/10000, 588/10000, 588/10000)

/-- The fragment shader's output RGB for an in-bounds texcoord:
`mix(colorBackground, texture, u_opacity_texture_sd)`, then mixed with
the HD texel by `u_opacity_texture_hd`, then mixed towards its luminance
by `u_grayscale`.  The uniforms `u_r`, `u_g`, `u_b` do not appear. -/
def fragmentShaderColor (texel texelHD : ℚ × ℚ × ℚ)
    (opacitySD opacityHD grayscale : ℚ) : ℚ × ℚ × ℚ :=
  let backgroundMixTexture := glslMix shaderColorBackground texel opacitySD
  let colorMixTexture := glslMix backgroundMixTexture texelHD opacityHD
  let lum : ℚ := 299/1000 * colorMixTexture.1 + 587/1000 * colorMixTexture.2.1
    + 114/1000 * colorMixTexture.2.2
  glslMix colorMixTexture (lum, lum, lum) grayscale

/-- Claim C5 counterexample: for a descriptor with background color
`#ff0000` (red), the synchronously uploaded 1x1 placeholder pixel is the
constant blue `(0, 0, 255, 255)`, not a red-tinted pixel; and before the
image decodes (`opacitySD = 0`, no HD) the shader renders the fixed
#0F0F0F background for any texel and any grayscale, so the tile does not
show the descriptor's background tint. -/
theorem C5_counterexample :
    ((createImageTexture "img" "#ff0000").1.placeholder =
        some { r := 0, g := 0, b := 255, a := 255 }) ∧
    (createImageTexture "img" "#ff0000").1.placeholder ≠
        some { r := 255, g := 0, b := 0, a := 255 } ∧
    hexToRgb "#ff0000" = (255, 0, 0) ∧
    (∀ texel texelHD grayscale,
      fragmentShaderColor texel texelHD 0 0 grayscale = shaderColorBackground) := by
  refine ⟨?_, ?_, ?_, ?_⟩
  · simp [createImageTexture, TextureResource.createTexture, TextureResource.load]
  · simp [createImageTexture, TextureResource.createTexture, TextureResource.load]
  · decide
  · intro texel texelHD grayscale
    unfold fragmentShaderColor glslMix shaderColorBackground
    norm_num
    ring

/-- Claim C5 (amended): `createTexture()` does synchronously upload a 1x1
opaque placeholder before any fetch (an HD resource performs zero decode
attempts at creation), and it stores the descriptor's background color
normalized into the `r`, `g`, `b` fields — but the uploaded pixel is the
constant `(0, 0, 255, 255)` for every background color, and the rendered
pre-load color is the shader's fixed #0F0F0F (the tint uniforms are
unused by the shader). -/
theorem C5_placeholder_constant (source bg : String) :
    (createImageTexture source bg false).2 = 0 ∧
    (createImageTexture source bg false).1.placeholder =
        some { r := 0, g := 0, b := 255, a := 255 } ∧
    (createImageTexture source bg false).1.r = (hexToRgb bg).1 / 255 ∧
    (createImageTexture source bg false).1.g = (hexToRgb bg).2.1 / 255 ∧
    (createImageTexture source bg false).1.b = (hexToRgb bg).2.2 / 255 ∧
    (∀ texel texelHD grayscale,
      fragmentShaderColor texel texelHD 0 0 grayscale = shaderColorBackground) := by
  refine ⟨rfl, rfl, rfl, rfl, rfl, ?_⟩
  intro texel texelHD grayscale
  unfold fragmentShaderColor glslMix shaderColorBackground
  norm_num
  ring

/-
Initialization error handling (`WebGLGrid.init`, `main`, `createShader`,
`createProgram`).
-/

/-- Whether each GL compile/link step succeeds in the environment. -/
structure GLEnv where
  vertexCompileOk : Bool
  fragmentCompileOk : Bool
  linkOk : Bool
deriving DecidableEq, Repr

/-- Source `createShader(source, type)`: throws
`Shader compile error: ...` when `COMPILE_STATUS` is false. -/
def createShader (env : GLEnv) (isVertex : Bool) : Except String Unit :=
  if (if isVertex then env.vertexCompileOk else env.fragmentCompileOk) then
    Except.ok ()
  else
    Except.error "Shader compile error"

/-- Source `createProgram(vertShader, fragShader)`: throws
`Program link error: ...` when `LINK_STATUS` is false. -/
def createProgram (env : GLEnv) : Except String Unit :=
  if env.linkOk then Except.ok () else Except.error "Program link error"

/-- The shader/program part of source `main()`: compile both shaders,
then link (the first failure propagates as a thrown error). -/
def mainSetup (env : GLEnv) : Except String Unit := do
  createShader env true
  createShader env false
  createProgram env

/-- What the async `init()` leaves behind: the `isInit` flag and the
value its returned promise settles with, as seen by the caller. -/
structure InitOutcome where
  isInit : Bool
  surfaced : Except String Unit
deriving Repr

/-- Source `init()`: `try { ... this.main(); ... this.isInit = true; }
catch (error) {}` — a throw from `main()` skips `isInit = true`, but the
empty `catch` swallows the error, so the async entry point always
resolves successfully. -/
def init (env : GLEnv) : InitOutcome :=
  match mainSetup env with
  | Except.ok () => { isInit := true, surfaced := Except.ok () }
  | Except.error _ => { isInit := false, surfaced := Except.ok () }

/-- Source `render(time)`: `if (!this.isInit || this.isDestroyed) return
false;` — the render loop body never runs while `isInit` is false. -/
def renderRuns (isInit isDestroyed : Bool) : Bool :=
  if !isInit || isDestroyed then false else true

/-- Claim C6 counterexample: with a failing vertex-shader compile,
`mainSetup` raises a compile error, yet the caller of the async `init()`
sees a successful resolution — the error does not surface; it is
absorbed by the empty `catch`. -/
theorem C6_counterexample :
    mainSetup { vertexCompileOk := false, fragmentCompileOk := true, linkOk := true } =
      Except.error "Shader compile error" ∧
    (init { vertexCompileOk := false, fragmentCompileOk := true, linkOk := true }).surfaced =
      Except.ok () := by
  constructor <;> rfl

/-- Claim C6 (amended): a shader compile or program link failure does
abort initialization — `isInit` is set exactly when the whole setup
succeeds, and while `isInit` is false the render loop never runs — but
the error never surfaces to the caller of the async `init()` entry
point: its promise always resolves successfully (the empty `catch`
absorbs the throw). -/
theorem C6_init_aborts_but_swallows (env : GLEnv) (isDestroyed : Bool) :
    ((init env).isInit = true ↔ mainSetup env = Except.ok ()) ∧
    (init env).surfaced = Except.ok () ∧
    renderRuns false isDestroyed = false := by
  refine ⟨?_, ?_, rfl⟩
  · unfold init
    cases h : mainSetup env with
    | ok u => cases u; simp
    | error e => simp
  · unfold init
    cases h : mainSetup env with
    | ok u => cases u; simp
    | error e => simp

/-
Intro-sequence gating (`onTextureSDLoaded`, `startIntroSequence`,
`introSequence`).
-/

/-- The renderer state driving the intro gate. -/
structure IntroState where
  indexTextureSD : ℕ
  totalSD : ℕ
  texturesLoaded : Bool
  delayIntroAnimation : Bool
  introStarted : Bool
  isIntroShown : Bool
deriving DecidableEq, Repr

/-- The events that can reach the gate: a standard texture finishing its
load (`onTextureSDLoaded`), the host's explicit trigger
(`startIntroSequence`), and the intro timeline completing (its
`onComplete`, which sets `isIntroShown`). -/
inductive IntroEvent where
  | sdLoaded
  | startIntro
  | introComplete
deriving DecidableEq, Repr

/-- Source `introSequence()`: `if (this.isIntroShown) return;` then build
and start the intro timeline (modelled as `introStarted := true`). -/
def introSequenceStep (s : IntroState) : IntroState :=
  if s.isIntroShown then s else { s with introStarted := true }

/-- One event step.
`sdLoaded`: `indexTextureSD++`, and when the counter equals
`textures.length`, set `texturesLoaded` and start the intro unless
delayed.
`startIntro`: `startIntroSequence()` — return if `isIntroShown` or if
`!texturesLoaded`, else `introSequence()`.
`introComplete`: the timeline's `onComplete` sets `isIntroShown`. -/
def introStep (s : IntroState) : IntroEvent → IntroState
  | IntroEvent.sdLoaded =>
    let s1 := { s with indexTextureSD := s.indexTextureSD + 1 }
    if s1.indexTextureSD = s1.totalSD then
      let s2 := { s1 with texturesLoaded := true }
      if s2.delayIntroAnimation then s2 else introSequenceStep s2
    else s1
  | IntroEvent.startIntro =>
    if s.isIntroShown then s
    else if !s.texturesLoaded then s
    else introSequenceStep s
  | IntroEvent.introComplete =>
    if s.introStarted then { s with isIntroShown := true } else s

/-- Run a sequence of events. -/
def introRun (s : IntroState) (evs : List IntroEvent) : IntroState :=
  evs.foldl introStep s

/-- The state right after construction with `textures.length = total` and
`delayIntro = delay`. -/
def initialIntroState (total : ℕ) (delay : Bool) : IntroState :=
  { indexTextureSD := 0
    totalSD := total
    texturesLoaded := false
    delayIntroAnimation := delay
    introStarted := false
    isIntroShown := false }

/-- Number of `sdLoaded` events in a list. -/
def countSd (evs : List IntroEvent) : ℕ :=
  (evs.filter (fun e => e = IntroEvent.sdLoaded)).length

/-- The inductive invariant of the intro gate. -/
def introInv (s : IntroState) : Prop :=
  s.indexTextureSD ≤ s.totalSD ∧
  (s.texturesLoaded = true → s.indexTextureSD = s.totalSD) ∧
  (s.introStarted = true → s.texturesLoaded = true)

lemma introStep_static (s : IntroState) (e : IntroEvent) :
    (introStep s e).totalSD = s.totalSD ∧
    (introStep s e).delayIntroAnimation = s.delayIntroAnimation := by
  cases e <;>
    simp only [introStep, introSequenceStep] <;>
    split_ifs <;> simp

lemma introStep_count_sd (s : IntroState) :
    (introStep s IntroEvent.sdLoaded).indexTextureSD = s.indexTextureSD + 1 := by
  simp only [introStep, introSequenceStep]
  split_ifs <;> rfl

lemma introStep_count_other (s : IntroState) (e : IntroEvent)
    (he : e ≠ IntroEvent.sdLoaded) :
    (introStep s e).indexTextureSD = s.indexTextureSD := by
  cases e with
  | sdLoaded => exact absurd rfl he
  | startIntro =>
    simp only [introStep, introSequenceStep]
    split_ifs <;> rfl
  | introComplete =>
    simp only [introStep]
    split_ifs <;> rfl

lemma introStep_inv (s : IntroState) (e : IntroEvent)
    (hinv : introInv s)
    (hcount : e = IntroEvent.sdLoaded → s.indexTextureSD + 1 ≤ s.totalSD) :
    introInv (introStep s e) := by
  obtain ⟨h1, h2, h3⟩ := hinv
  cases e with
  | sdLoaded =>
    have hc := hcount rfl
    simp only [introStep, introSequenceStep]
    split_ifs with heq hdelay hshown
    · have heq' : s.indexTextureSD + 1 = s.totalSD := heq
      exact ⟨le_of_eq heq', fun _ => heq', fun _ => rfl⟩
    · have heq' : s.indexTextureSD + 1 = s.totalSD := heq
      exact ⟨le_of_eq heq', fun _ => heq', fun _ => rfl⟩
    · have heq' : s.indexTextureSD + 1 = s.totalSD := heq
      exact ⟨le_of_eq heq', fun _ => heq', fun _ => rfl⟩
    · exact ⟨hc, fun hl => absurd (h2 hl) (by omega), h3⟩
  | startIntro =>
    simp only [introStep, introSequenceStep]
    split_ifs with hshown hnl
    · exact ⟨h1, h2, h3⟩
    · exact ⟨h1, h2, h3⟩
    · exact ⟨h1, h2, fun _ => by simpa using hnl⟩
  | introComplete =>
    simp only [introStep]
    split_ifs with hstarted
    · exact ⟨h1, h2, h3⟩
    · exact ⟨h1, h2, h3⟩

lemma introRun_inv (evs : List IntroEvent) (s : IntroState)
    (hinv : introInv s)
    (hcount : s.indexTextureSD + countSd evs ≤ s.totalSD) :
    introInv (introRun s evs) := by
  induction evs generalizing s with
  | nil => exact hinv
  | cons e evs ih =>
    have hstat := introStep_static s e
    have hc : e = IntroEvent.sdLoaded → s.indexTextureSD + 1 ≤ s.totalSD := by
      intro he
      have : countSd (e :: evs) = countSd evs + 1 := by
        simp [countSd, he, List.filter]
      omega
    have hstep := introStep_inv s e hinv hc
    have : introRun s (e :: evs) = introRun (introStep s e) evs := rfl
    rw [this]
    apply ih (introStep s e) hstep
    rw [hstat.1]
    by_cases he : e = IntroEvent.sdLoaded
    · have hcnt := introStep_count_sd s
      have hlist : countSd (e :: evs) = countSd evs + 1 := by
        simp [countSd, he, List.filter]
      rw [he, hcnt]
      omega
    · have hcnt := introStep_count_other s e he
      have hlist : countSd (e :: evs) = countSd evs := by
        simp [countSd, List.filter, he]
      rw [hcnt]
      omega

lemma introRun_no_trigger (evs : List IntroEvent) (s : IntroState)
    (hdelay : s.delayIntroAnimation = true)
    (hstarted : s.introStarted = false)
    (hmem : IntroEvent.startIntro ∉ evs) :
    (introRun s evs).introStarted = false := by
  induction evs generalizing s with
  | nil => exact hstarted
  | cons e evs ih =>
    have hmem' : IntroEvent.startIntro ∉ evs := fun h => hmem (List.mem_cons_of_mem e h)
    have hne : e ≠ IntroEvent.startIntro := fun h => hmem (h ▸ List.mem_cons_self e evs)
    have : introRun s (e :: evs) = introRun (introStep s e) evs := rfl
    rw [this]
    apply ih _ _ _ hmem'
    · cases e <;> simp only [introStep, introSequenceStep] <;>
        split_ifs <;> simp_all
    · cases e with
      | sdLoaded =>
        simp only [introStep, introSequenceStep]
        split_ifs <;> simp_all
      | startIntro => exact absurd rfl hne
      | introComplete =>
        simp only [introStep]
        split_ifs <;> simp_all

/-- Claim C7: starting from construction with `total` standard textures
(each of which completes its load at most once, so the stream carries at
most `total` `sdLoaded` events), if the intro sequence has started then
all standard textures had completed loading — `texturesLoaded` is set
and the load counter equals the number of standard texture resources —
and when the renderer was constructed with a delayed intro the intro
cannot have started unless `startIntroSequence` was invoked. -/
theorem C7_intro_gated_on_all_textures (total : ℕ) (delay : Bool)
    (evs : List IntroEvent) (hcount : countSd evs ≤ total) :
    ((introRun (initialIntroState total delay) evs).introStarted = true →
      (introRun (initialIntroState total delay) evs).texturesLoaded = true ∧
      (introRun (initialIntroState total delay) evs).indexTextureSD = total) ∧
    (delay = true → IntroEvent.startIntro ∉ evs →
      (introRun (initialIntroState total delay) evs).introStarted = false) := by
  have hinv0 : introInv (initialIntroState total delay) := by
    refine ⟨Nat.zero_le _, ?_, ?_⟩ <;> simp [initialIntroState]
  have hinv := introRun_inv evs (initialIntroState total delay) hinv0
    (by simpa [initialIntroState] using hcount)
  have htot : (introRun (initialIntroState total delay) evs).totalSD = total := by
    have : ∀ l s, (introRun s l).totalSD = s.totalSD := by
      intro l
      induction l with
      | nil => intro s; rfl
      | cons e l ih =>
        intro s
        have : introRun s (e :: l) = introRun (introStep s e) l := rfl
        rw [this, ih, (introStep_static s e).1]
    simpa [initialIntroState] using this evs (initialIntroState total delay)
  refine ⟨?_, ?_⟩
  · intro hstart
    obtain ⟨h1, h2, h3⟩ := hinv
    have hl := h3 hstart
    have heq := h2 hl
    rw [htot] at heq
    exact ⟨hl, heq⟩
  · intro hd hmem
    exact introRun_no_trigger evs _ (by simp [initialIntroState, hd]) (by simp [initialIntroState]) hmem

/-- Witness for C7: with two standard textures and a delayed intro, after
both load events and no explicit trigger the intro has not started. -/
theorem C7_intro_gated_on_all_textures_witness :
    (introRun (initialIntroState 2 true)
      [IntroEvent.sdLoaded, IntroEvent.sdLoaded]).introStarted = false := by
  exact (C7_intro_gated_on_all_textures 2 true
    [IntroEvent.sdLoaded, IntroEvent.sdLoaded] (by decide)).2 rfl (by decide)

/-- Claim C9: a `startIntroSequence()` call made at any point where the
standard textures have not all loaded (`texturesLoaded` still false) is
erased from the history: the renderer state after any subsequent events
is exactly what it would have been had the call never happened — the
trigger changes no state and is not remembered, so the intro will not
start when loading later completes unless `startIntroSequence` is called
again. -/
theorem C9_early_trigger_forgotten (total : ℕ) (delay : Bool)
    (pre evs : List IntroEvent)
    (hnotloaded : (introRun (initialIntroState total delay) pre).texturesLoaded = false) :
    introRun (initialIntroState total delay) (pre ++ IntroEvent.startIntro :: evs) =
      introRun (initialIntroState total delay) (pre ++ evs) := by
  unfold introRun
  rw [List.foldl_append, List.foldl_append]
  have hstep : introStep (introRun (initialIntroState total delay) pre)
      IntroEvent.startIntro = introRun (initialIntroState total delay) pre := by
    simp only [introStep]
    split_ifs with h1 h2
    · rfl
    · rfl
    · rw [Bool.not_eq_true'] at h2
      exact absurd hnotloaded (by simp [h2])
  show List.foldl introStep
      (introStep (List.foldl introStep (initialIntroState total delay) pre)
        IntroEvent.startIntro) evs = _
  rw [show introStep (List.foldl introStep (initialIntroState total delay) pre)
        IntroEvent.startIntro =
      List.foldl introStep (initialIntroState total delay) pre from hstep]

/-- Witness for C9: delayed intro, two textures; triggering after the
first load event (textures not yet all loaded) leaves exactly the state
of never having triggered. -/
theorem C9_early_trigger_forgotten_witness :
    introRun (initialIntroState 2 true)
        ([IntroEvent.sdLoaded] ++ IntroEvent.startIntro :: [IntroEvent.sdLoaded]) =
      introRun (initialIntroState 2 true) ([IntroEvent.sdLoaded] ++ [IntroEvent.sdLoaded]) := by
  exact C9_early_trigger_forgotten 2 true [IntroEvent.sdLoaded] [IntroEvent.sdLoaded] (by decide)

/-
Zoom (`WebGLGrid.zoom`).
-/

/-- The state `zoom(action)` reads. -/
structure ZoomState where
  isIntroShown : Bool
  currentZoom : ℚ
deriving DecidableEq, Repr

/-- The target computed inside `zoom(action)`:
`action === 'zoom-in' ? Math.round(z * 2 * 1000) / 1000
                      : Math.round(z * 0.5 * 1000) / 1000`,
then clamped by `Math.max(0.25, targetZoom)`. -/
def zoomTargetFor (currentZoom : ℚ) (action : String) : ℚ :=
  let targetZoom : ℚ :=
    if action = "zoom-in" then ((jsRound (currentZoom * 2 * 1000) : ℤ) : ℚ) / 1000
    else ((jsRound (currentZoom * (1/2) * 1000) : ℤ) : ℚ) / 1000
  max (1/4) targetZoom

/-- Source `zoom(action)`: `if (!this.isIntroShown) return;`, else start a
tween from `currentZoom` to the clamped target (each tween update applies
an intermediate value via `applyZoom`).  Returns the tween target, `none`
when the call is ignored. -/
def zoomCall (s : ZoomState) (action : String) : Option ℚ :=
  if !s.isIntroShown then none
  else some (zoomTargetFor s.currentZoom action)

/-- The zoom value after `n` completed `zoom('zoom-out')` animations. -/
def zoomOutIter (z : ℚ) : ℕ → ℚ
  | 0 => z
  | n + 1 => zoomTargetFor (zoomOutIter z n) "zoom-out"

lemma zoomTargetFor_ge (z : ℚ) (action : String) :
    1/4 ≤ zoomTargetFor z action :=
  le_max_left _ _

/-- Claim C3: starting from any zoom value ≥ 1/4 (every reachable
steady-state zoom: the intro ends at 0.9, and every animation target is
clamped), any number of `zoom('zoom-out')` calls keeps the value at or
above the 0.25 floor, and every intermediate tween value — a convex
combination `z + (target - z) * e` with easing fraction `e ∈ [0, 1]` —
also stays at or above 1/4.  Calls issued mid-animation start from such
an intermediate value, which the same bound covers. -/
theorem C3_zoom_out_clamped (z : ℚ) (hz : 1/4 ≤ z) (n : ℕ) :
    1/4 ≤ zoomOutIter z n ∧
    ∀ e : ℚ, 0 ≤ e → e ≤ 1 →
      1/4 ≤ zoomOutIter z n +
        (zoomTargetFor (zoomOutIter z n) "zoom-out" - zoomOutIter z n) * e := by
  have hn : ∀ m, 1/4 ≤ zoomOutIter z m := by
    intro m
    cases m with
    | zero => exact hz
    | succ k => exact zoomTargetFor_ge _ _
  refine ⟨hn n, ?_⟩
  intro e he0 he1
  have h1 := hn n
  have h2 := zoomTargetFor_ge (zoomOutIter z n) "zoom-out"
  nlinarith [mul_nonneg (sub_nonneg.mpr h1) (sub_nonneg.mpr he1),
    mul_nonneg (sub_nonneg.mpr h2) he0]

/-- Witness for C3: from the post-intro zoom 0.9, after two zoom-outs the
value is exactly the 0.25 floor, and a mid-animation value at easing
fraction 1/3 also respects the floor. -/
theorem C3_zoom_out_clamped_witness :
    (1/4 : ℚ) ≤ zoomOutIter (9/10) 2 ∧
    1/4 ≤ zoomOutIter (9/10) 2 +
      (zoomTargetFor (zoomOutIter (9/10) 2) "zoom-out" - zoomOutIter (9/10) 2) * (1/3) := by
  have h := C3_zoom_out_clamped (9/10) (by norm_num) 2
  exact ⟨h.1, h.2 (1/3) (by norm_num) (by norm_num)⟩

/-- Claim C10: `zoom(action)` treats every action string other than
`'zoom-in'` exactly like `'zoom-out'` — the target is
`max(0.25, round(currentZoom * 0.5 * 1000) / 1000)` — and the call is a
no-op before the intro has completed. -/
theorem C10_non_zoom_in_is_zoom_out (s : ZoomState) (action : String)
    (ha : action ≠ "zoom-in") :
    zoomCall s action = zoomCall s "zoom-out" ∧
    (s.isIntroShown = false → zoomCall s action = none) ∧
    (s.isIntroShown = true → zoomCall s action =
      some (max (1/4) (((jsRound (s.currentZoom * (1/2) * 1000) : ℤ) : ℚ) / 1000))) := by
  refine ⟨?_, ?_, ?_⟩
  · unfold zoomCall zoomTargetFor
    rw [if_neg ha, if_neg (by decide : ¬ ("zoom-out" = "zoom-in"))]
  · intro h
    unfold zoomCall
    rw [h]
    rfl
  · intro h
    unfold zoomCall zoomTargetFor
    rw [h, if_neg ha]
    rfl

/-- Witness for C10: the arbitrary action string `"reset"` behaves like
`'zoom-out'` at a post-intro state with zoom 0.9. -/
theorem C10_non_zoom_in_is_zoom_out_witness :
    zoomCall { isIntroShown := true, currentZoom := 9/10 } "reset" =
      zoomCall { isIntroShown := true, currentZoom := 9/10 } "zoom-out" :=
  (C10_non_zoom_in_is_zoom_out { isIntroShown := true, currentZoom := 9/10 }
    "reset" (by decide)).1

/-
Teardown (`WebGLGrid.destroy`, `textureObj.destroy`).
-/

/-- Source `textureObj.destroy()`: `if (this.texture) { gl.deleteTexture;
this.texture = null }`.  The Bool is the handle, the counter accumulates
`gl.deleteTexture` calls. -/
def texDestroy (texture : Bool) (deleteCalls : ℕ) : Bool × ℕ :=
  if texture then (false, deleteCalls + 1) else (texture, deleteCalls)

/-- `this.textures.forEach((texture) => texture.destroy())`, threading
the cumulative `gl.deleteTexture` call count. -/
def releaseTextures : List Bool → ℕ → List Bool × ℕ
  | [], c => ([], c)
  | t :: ts, c =>
    let r := texDestroy t c
    let rs := releaseTextures ts r.2
    (r.1 :: rs.1, rs.2)

/-- The renderer resources `destroy()` touches, with cumulative
`gl.deleteTexture` / `gl.deleteBuffer` / `gl.deleteProgram` call counts
to observe double-release. -/
structure RendererState where
  isDestroyed : Bool
  rafActive : Bool
  textures : List Bool
  texturesHD : List Bool
  positionBuffer : Bool
  texcoordBuffer : Bool
  program : Bool
  deleteTextureCalls : ℕ
  deleteBufferCalls : ℕ
  deleteProgramCalls : ℕ
deriving DecidableEq, Repr

/-- Source `WebGLGrid.destroy()`: `if (this.isDestroyed) return;` then set
the flag, stop the frame loop and observers, and (in the deferred
cleanup) destroy every texture, delete both buffers and the program,
nulling each reference.  The deferred `setTimeout` body is included here
as part of the one-shot effect; the second call returns before
scheduling anything. -/
def destroy (s : RendererState) : RendererState :=
  if s.isDestroyed then s
  else
    { s with
      isDestroyed := true
      rafActive := false
      textures := []
      texturesHD := []
      positionBuffer := false
      texcoordBuffer := false
      program := false
      deleteTextureCalls :=
        (releaseTextures s.texturesHD
          (releaseTextures s.textures s.deleteTextureCalls).2).2
      deleteBufferCalls := s.deleteBufferCalls +
        (if s.positionBuffer then 1 else 0) + (if s.texcoordBuffer then 1 else 0)
      deleteProgramCalls := s.deleteProgramCalls + (if s.program then 1 else 0) }

/-- Claim C8: `destroy()` is idempotent — a second call leaves the entire
state, including every `gl.delete*` call counter, unchanged, so no
resource is released twice; a single call deletes the program (and each
buffer) at most once; and each `textureObj.destroy()` releases its GPU
handle only on the first call. -/
theorem C8_destroy_idempotent (s : RendererState) :
    destroy (destroy s) = destroy s ∧
    (destroy s).deleteProgramCalls ≤ s.deleteProgramCalls + 1 ∧
    (∀ t c, texDestroy (texDestroy t c).1 (texDestroy t c).2 = texDestroy t c) := by
  refine ⟨?_, ?_, ?_⟩
  · by_cases h : s.isDestroyed
    · have hs : destroy s = s := by rw [destroy, if_pos h]
      rw [hs, hs]
    · have h1 : (destroy s).isDestroyed = true := by
        rw [destroy, if_neg h]
      nth_rewrite 1 [destroy]
      rw [if_pos h1]
  · by_cases h : s.isDestroyed
    · rw [destroy, if_pos h]
      omega
    · rw [destroy, if_neg h]
      dsimp only
      split_ifs <;> omega
  · intro t c
    cases t <;> simp [texDestroy]

/-
Default layout (`setSizeItemsDefault`, `getTotalDimensionsItems`).
-/

/-- Source `setSizeItemsDefault`'s placement loop over `imagesGL`:
mutable `row` (starting at -1), `x`, `y`; on each index divisible by
`COLUMN_ITEM_LENGTH` a new row starts (`x = 0`,
`y = row * (ITEM_HEIGHT + VERTICAL_GAP)`), each item gets
`updateSize(x, y, ITEM_WIDTH)`, then
`x += ITEM_WIDTH + HORIZONTAL_GAP`. -/
def placeLoop (cols : ℕ) (IW HG IH VG : ℚ) :
    List GridItem → ℕ → ℤ → ℚ → ℚ → List GridItem
  | [], _, _, _, _ => []
  | it :: rest, index, row, x, y =>
    if index % cols = 0 then
      (it.updateSize 0 (((row + 1 : ℤ) : ℚ) * (IH + VG)) IW).1 ::
        placeLoop cols IW HG IH VG rest (index + 1) (row + 1) (0 + (IW + HG))
          (((row + 1 : ℤ) : ℚ) * (IH + VG))
    else
      (it.updateSize x y IW).1 ::
        placeLoop cols IW HG IH VG rest (index + 1) row (x + (IW + HG)) y

/-- Closed form of the placement loop: the item at global index `k` sits
at column `k % cols` and row `k / cols` of the slot lattice. -/
def placedItem (cols : ℕ) (IW HG IH VG : ℚ) (it : GridItem) (k : ℕ) : GridItem :=
  (it.updateSize (((k % cols : ℕ) : ℚ) * (IW + HG))
    (((k / cols : ℕ) : ℚ) * (IH + VG)) IW).1

/-- The placement loop in index-map form. -/
def placeMap (cols : ℕ) (IW HG IH VG : ℚ) : List GridItem → ℕ → List GridItem
  | [], _ => []
  | it :: rest, k =>
    placedItem cols IW HG IH VG it k :: placeMap cols IW HG IH VG rest (k + 1)

lemma succ_mod_div_of_not_dvd (cols i : ℕ) (hnd : ¬ cols ∣ i + 1) :
    (i + 1) % cols = i % cols + 1 ∧ (i + 1) / cols = i / cols := by
  have hdiv := Nat.succ_div_of_not_dvd hnd
  have hmd1 := Nat.mod_add_div (i + 1) cols
  have hmd0 := Nat.mod_add_div i cols
  rw [hdiv] at hmd1
  refine ⟨?_, hdiv⟩
  generalize cols * (i / cols) = b at hmd1 hmd0
  omega

lemma mod_zero_succ_dvd (cols i : ℕ)
    (h0 : i % cols = 0) (h1 : (i + 1) % cols = 0) : cols = 1 := by
  have d0 : cols ∣ i := Nat.dvd_of_mod_eq_zero h0
  have d1 : cols ∣ i + 1 := Nat.dvd_of_mod_eq_zero h1
  have : cols ∣ 1 := by simpa using Nat.dvd_sub' d1 d0
  simpa using this

lemma placeLoop_eq_placeMap (cols : ℕ) (IW HG IH VG : ℚ) (l : List GridItem) :
    ∀ (i : ℕ) (row : ℤ) (x y : ℚ),
      (i % cols = 0 → row = ((i / cols : ℕ) : ℤ) - 1) →
      (i % cols ≠ 0 → row = ((i / cols : ℕ) : ℤ) ∧
        x = ((i % cols : ℕ) : ℚ) * (IW + HG) ∧
        y = ((i / cols : ℕ) : ℚ) * (IH + VG)) →
      placeLoop cols IW HG IH VG l i row x y = placeMap cols IW HG IH VG l i := by
  induction l with
  | nil => intro i row x y _ _; rfl
  | cons it rest ih =>
    intro i row x y hA hB
    by_cases hmod : i % cols = 0
    · have hrow := hA hmod
      have hx0 : (0 : ℚ) = ((i % cols : ℕ) : ℚ) * (IW + HG) := by
        rw [hmod]; simp
      have hy0 : ((row + 1 : ℤ) : ℚ) * (IH + VG) =
          ((i / cols : ℕ) : ℚ) * (IH + VG) := by
        rw [hrow, sub_add_cancel, Int.cast_natCast]
      rw [placeLoop, if_pos hmod, placeMap]
      congr 1
      · rw [placedItem, ← hx0, ← hy0]
      · apply ih
        · intro h1
          have hone : cols = 1 := mod_zero_succ_dvd cols i hmod h1
          subst hone
          simp only [Nat.div_one] at hrow ⊢
          omega
        · intro h1
          have hnd : ¬ cols ∣ (i + 1) := fun hd => h1 (Nat.mod_eq_zero_of_dvd hd)
          obtain ⟨hm, hd⟩ := succ_mod_div_of_not_dvd cols i hnd
          refine ⟨?_, ?_, ?_⟩
          · rw [hd, hrow]; ring
          · rw [hm, hmod]; push_cast; ring
          · rw [hd, hy0]
    · obtain ⟨hrow, hx, hy⟩ := hB hmod
      rw [placeLoop, if_neg hmod, placeMap]
      congr 1
      · rw [placedItem, hx, hy]
      · apply ih
        · intro h1
          have hd : cols ∣ i + 1 := Nat.dvd_of_mod_eq_zero h1
          rw [Nat.succ_div_of_dvd hd, hrow]
          push_cast
          ring
        · intro h1
          have hnd : ¬ cols ∣ (i + 1) := fun hd => h1 (Nat.mod_eq_zero_of_dvd hd)
          obtain ⟨hm, hd⟩ := succ_mod_div_of_not_dvd cols i hnd
          refine ⟨?_, ?_, ?_⟩
          · rw [hd, hrow]
          · rw [hm, hx]; push_cast; ring
          · rw [hd, hy]

/-- The running minimum of `getTotalDimensionsItems`: `minX` starts
undefined (`none`), then `if (minX === undefined || v <= minX) minX = v`. -/
def foldMinOpt (l : List ℚ) : Option ℚ :=
  l.foldl (fun acc v => match acc with
    | none => some v
    | some m => if v ≤ m then some v else some m) none

/-- The running maximum of `getTotalDimensionsItems`: `maxX` starts at
`0`, then `if (v >= maxX) maxX = v`. -/
def foldMax0 (l : List ℚ) : ℚ :=
  l.foldl (fun acc v => if v ≥ acc then v else acc) 0

/-- Source `getTotalDimensionsItems()`:
`width = maxX - minX + ITEM_WIDTH + HORIZONTAL_GAP`, and analogously the
height.  (On an empty list the source leaves `minX` undefined and the
width would be `NaN`; `getD 0` stands in, and every use here is on a
nonempty list.) -/
def getTotalDimensionsItems (IW HG IH VG : ℚ) (items : List GridItem) : Dimensions :=
  { width := foldMax0 (items.map fun it => it.textureObject.x) -
      (foldMinOpt (items.map fun it => it.textureObject.x)).getD 0 + IW + HG
    height := foldMax0 (items.map fun it => it.textureObject.y) -
      (foldMinOpt (items.map fun it => it.textureObject.y)).getD 0 + IH + VG }

/-- The outputs of `setSizeItemsDefault` the claims observe. -/
structure LayoutResult where
  items : List GridItem
  dims : Dimensions
  centerCameraOffsetX : ℚ
  centerCameraOffsetY : ℚ

/-- The centering pass of `setSizeItemsDefault`: shift every item by the
center-camera offset (`item.textureObject.x -= centerCameraOffsetX`,
likewise `y`), then `item.updateBounds(dimensions, ITEM_WIDTH +
HORIZONTAL_GAP, ITEM_HEIGHT + VERTICAL_GAP, offsetX, offsetY)`. -/
def applyCenterOffset (dims : Dimensions) (sx sy offX offY : ℚ)
    (placed : List GridItem) : List GridItem :=
  placed.map fun it =>
    GridItem.updateBounds
      { it with textureObject :=
          { it.textureObject with
            x := it.textureObject.x - offX
            y := it.textureObject.y - offY } }
      dims sx sy offX offY

/-- Source `setSizeItemsDefault()` with `windowSize = (W, H)` and the
current metrics `ITEM_WIDTH = IW`, `ITEM_HEIGHT = IH`,
`HORIZONTAL_GAP = HG`, `VERTICAL_GAP = VG` (at default-layout time these
are the constructor's `90·pixelRatio`, `140·pixelRatio`,
`10·pixelRatio`, `10·pixelRatio`).  Row-major placement, then
`centerCameraOffset = (dimension - gap - windowSize) / 2` per axis, then
the centering pass. -/
def setSizeItemsDefault (cols : ℕ) (IW HG IH VG W H : ℚ)
    (items : List GridItem) : LayoutResult :=
  let placed := placeLoop cols IW HG IH VG items 0 (-1) 0 0
  let dims := getTotalDimensionsItems IW HG IH VG placed
  let offX := (dims.width - HG - W) / 2
  let offY := (dims.height - VG - H) / 2
  { items := applyCenterOffset dims (IW + HG) (IH + VG) offX offY placed
    dims := dims
    centerCameraOffsetX := offX
    centerCameraOffsetY := offY }

/-- Head-seeded minimum of a list (0 on the empty list, never used). -/
def minList : List ℚ → ℚ
  | [] => 0
  | a :: l => l.foldl min a

/-- Head-seeded maximum of a list (0 on the empty list, never used). -/
def maxList : List ℚ → ℚ
  | [] => 0
  | a :: l => l.foldl max a

/-- Claim C4's observable: the center of the content bounding box of the
items — the tightest axis-aligned box containing every item's display
rectangle `[x, x + displayWidth] × [y, y + displayHeight]`. -/
def contentBBoxCenter (items : List GridItem) : ℚ × ℚ :=
  ((minList (items.map fun it => it.textureObject.x) +
      maxList (items.map fun it => it.textureObject.x + it.textureObject.displayWidth)) / 2,
   (minList (items.map fun it => it.textureObject.y) +
      maxList (items.map fun it => it.textureObject.y + it.textureObject.displayHeight)) / 2)

lemma foldl_min_le_init (l : List ℚ) (a : ℚ) : l.foldl min a ≤ a := by
  induction l generalizing a with
  | nil => exact le_refl a
  | cons v l ih => exact le_trans (ih (min a v)) (min_le_left a v)

lemma foldl_min_le_mem (l : List ℚ) (a v : ℚ) (h : v ∈ l) : l.foldl min a ≤ v := by
  induction l generalizing a with
  | nil => cases h
  | cons w l ih =>
    rcases List.mem_cons.mp h with h1 | h1
    · subst h1
      exact le_trans (foldl_min_le_init l (min a v)) (min_le_right a v)
    · exact ih (min a w) h1

lemma le_foldl_min (l : List ℚ) (a b : ℚ) (ha : b ≤ a) (h : ∀ v ∈ l, b ≤ v) :
    b ≤ l.foldl min a := by
  induction l generalizing a with
  | nil => exact ha
  | cons v l ih =>
    exact ih (min a v) (le_min ha (h v (List.mem_cons_self v l)))
      (fun w hw => h w (List.mem_cons_of_mem v hw))

lemma le_foldl_max_init (l : List ℚ) (a : ℚ) : a ≤ l.foldl max a := by
  induction l generalizing a with
  | nil => exact le_refl a
  | cons v l ih => exact le_trans (le_max_left a v) (ih (max a v))

lemma le_foldl_max_mem (l : List ℚ) (a v : ℚ) (h : v ∈ l) : v ≤ l.foldl max a := by
  induction l generalizing a with
  | nil => cases h
  | cons w l ih =>
    rcases List.mem_cons.mp h with h1 | h1
    · subst h1
      exact le_trans (le_max_right a v) (le_foldl_max_init l (max a v))
    · exact ih (max a w) h1

lemma foldl_max_le (l : List ℚ) (a b : ℚ) (ha : a ≤ b) (h : ∀ v ∈ l, v ≤ b) :
    l.foldl max a ≤ b := by
  induction l generalizing a with
  | nil => exact ha
  | cons v l ih =>
    exact ih (max a v) (max_le ha (h v (List.mem_cons_self v l)))
      (fun w hw => h w (List.mem_cons_of_mem v hw))

lemma minList_eq (l : List ℚ) (b : ℚ) (hmem : b ∈ l) (hall : ∀ v ∈ l, b ≤ v) :
    minList l = b := by
  cases l with
  | nil => cases hmem
  | cons a l =>
    apply le_antisymm
    · rcases List.mem_cons.mp hmem with h | h
      · rw [h]
        exact foldl_min_le_init l a
      · exact foldl_min_le_mem l a b h
    · exact le_foldl_min l a b (hall a (List.mem_cons_self a l))
        (fun v hv => hall v (List.mem_cons_of_mem a hv))

lemma maxList_eq (l : List ℚ) (b : ℚ) (hmem : b ∈ l) (hall : ∀ v ∈ l, v ≤ b) :
    maxList l = b := by
  cases l with
  | nil => cases hmem
  | cons a l =>
    apply le_antisymm
    · exact foldl_max_le l a b (hall a (List.mem_cons_self a l))
        (fun v hv => hall v (List.mem_cons_of_mem a hv))
    · rcases List.mem_cons.mp hmem with h | h
      · rw [h]
        exact le_foldl_max_init l a
      · exact le_foldl_max_mem l a b h

lemma foldMax0_eq_foldl_max (l : List ℚ) : foldMax0 l = l.foldl max 0 := by
  have hf : (fun (acc v : ℚ) => if v ≥ acc then v else acc) = fun acc v => max acc v := by
    funext acc v
    simp only [ge_iff_le, max_def]
  unfold foldMax0
  rw [hf]

lemma foldMax0_eq (l : List ℚ) (b : ℚ) (hb : 0 ≤ b) (hmem : b ∈ l)
    (hall : ∀ v ∈ l, v ≤ b) : foldMax0 l = b := by
  rw [foldMax0_eq_foldl_max]
  exact le_antisymm (foldl_max_le l 0 b hb hall) (le_foldl_max_mem l 0 b hmem)

lemma foldMinOpt_go (l : List ℚ) : ∀ m : ℚ,
    l.foldl (fun acc v => match acc with
      | none => some v
      | some m' => if v ≤ m' then some v else some m') (some m) =
      some (l.foldl min m) := by
  induction l with
  | nil => intro m; rfl
  | cons v l ih =>
    intro m
    have hstep : (if v ≤ m then some v else some m) = some (min m v) := by
      by_cases h : v ≤ m
      · rw [if_pos h, min_eq_right h]
      · rw [if_neg h, min_eq_left (le_of_not_le h)]
    show l.foldl _ (if v ≤ m then some v else some m) = _
    rw [hstep]
    exact ih (min m v)

lemma foldMinOpt_getD (a : ℚ) (l : List ℚ) :
    (foldMinOpt (a :: l)).getD 0 = minList (a :: l) := by
  show (l.foldl _ (some a)).getD 0 = _
  rw [foldMinOpt_go l a]
  rfl

lemma setSizeItemsDefault_items_eq (cols : ℕ) (IW HG IH VG W H : ℚ)
    (items : List GridItem) :
    (setSizeItemsDefault cols IW HG IH VG W H items).items =
      applyCenterOffset
        (getTotalDimensionsItems IW HG IH VG
          (placeLoop cols IW HG IH VG items 0 (-1) 0 0))
        (IW + HG) (IH + VG)
        (((getTotalDimensionsItems IW HG IH VG
            (placeLoop cols IW HG IH VG items 0 (-1) 0 0)).width - HG - W) / 2)
        (((getTotalDimensionsItems IW HG IH VG
            (placeLoop cols IW HG IH VG items 0 (-1) 0 0)).height - VG - H) / 2)
        (placeLoop cols IW HG IH VG items 0 (-1) 0 0) := rfl

lemma applyCenterOffset_map_x (dims : Dimensions) (sx sy offX offY : ℚ)
    (P : List GridItem) :
    (applyCenterOffset dims sx sy offX offY P).map (fun it => it.textureObject.x) =
      P.map (fun it => it.textureObject.x - offX) := by
  unfold applyCenterOffset
  rw [List.map_map]
  rfl

lemma applyCenterOffset_map_y (dims : Dimensions) (sx sy offX offY : ℚ)
    (P : List GridItem) :
    (applyCenterOffset dims sx sy offX offY P).map (fun it => it.textureObject.y) =
      P.map (fun it => it.textureObject.y - offY) := by
  unfold applyCenterOffset
  rw [List.map_map]
  rfl

lemma applyCenterOffset_map_rightEdge (dims : Dimensions) (sx sy offX offY : ℚ)
    (P : List GridItem) :
    (applyCenterOffset dims sx sy offX offY P).map
        (fun it => it.textureObject.x + it.textureObject.displayWidth) =
      P.map (fun it => it.textureObject.x - offX + it.textureObject.displayWidth) := by
  unfold applyCenterOffset
  rw [List.map_map]
  rfl

lemma applyCenterOffset_map_bottomEdge (dims : Dimensions) (sx sy offX offY : ℚ)
    (P : List GridItem) :
    (applyCenterOffset dims sx sy offX offY P).map
        (fun it => it.textureObject.y + it.textureObject.displayHeight) =
      P.map (fun it => it.textureObject.y - offY + it.textureObject.displayHeight) := by
  unfold applyCenterOffset
  rw [List.map_map]
  rfl

lemma placeMap_length (cols : ℕ) (IW HG IH VG : ℚ) (l : List GridItem) :
    ∀ k, (placeMap cols IW HG IH VG l k).length = l.length := by
  induction l with
  | nil => intro k; rfl
  | cons it rest ih =>
    intro k
    simp only [placeMap, List.length_cons, ih (k + 1)]

lemma placeMap_map_x (cols : ℕ) (IW HG IH VG : ℚ) (l : List GridItem) :
    ∀ k, (placeMap cols IW HG IH VG l k).map (fun it => it.textureObject.x) =
      (List.range' k l.length).map (fun j => ((j % cols : ℕ) : ℚ) * (IW + HG)) := by
  induction l with
  | nil => intro k; rfl
  | cons it rest ih =>
    intro k
    simp only [placeMap, List.map_cons, List.length_cons, List.range'_succ]
    exact congrArg₂ List.cons rfl (ih (k + 1))

lemma placeMap_map_y (cols : ℕ) (IW HG IH VG : ℚ) (l : List GridItem) :
    ∀ k, (placeMap cols IW HG IH VG l k).map (fun it => it.textureObject.y) =
      (List.range' k l.length).map (fun j => ((j / cols : ℕ) : ℚ) * (IH + VG)) := by
  induction l with
  | nil => intro k; rfl
  | cons it rest ih =>
    intro k
    simp only [placeMap, List.map_cons, List.length_cons, List.range'_succ]
    exact congrArg₂ List.cons rfl (ih (k + 1))

lemma placeMap_displayWidth (cols : ℕ) (IW HG IH VG : ℚ) (l : List GridItem) :
    ∀ k, ∀ it' ∈ placeMap cols IW HG IH VG l k,
      it'.textureObject.displayWidth = IW := by
  induction l with
  | nil =>
    intro k it' h
    simp only [placeMap] at h
    cases h
  | cons it rest ih =>
    intro k it' h
    simp only [placeMap] at h
    rcases List.mem_cons.mp h with h1 | h1
    · rw [h1]; rfl
    · exact ih (k + 1) it' h1

lemma placeMap_displayHeight (cols : ℕ) (IW HG IH VG IHval : ℚ) (l : List GridItem)
    (hl : ∀ it ∈ l, ((jsRound (IW * it.textureHeight / it.textureWidth) : ℤ) : ℚ) = IHval) :
    ∀ k, ∀ it' ∈ placeMap cols IW HG IH VG l k,
      it'.textureObject.displayHeight = IHval := by
  induction l with
  | nil =>
    intro k it' h
    simp only [placeMap] at h
    cases h
  | cons it rest ih =>
    intro k it' h
    simp only [placeMap] at h
    rcases List.mem_cons.mp h with h1 | h1
    · rw [h1]
      exact hl it (List.mem_cons_self it rest)
    · exact ih (fun j hj => hl j (List.mem_cons_of_mem it hj)) (k + 1) it' h1

lemma mapped_range'_min_max (n : ℕ) (f : ℕ → ℚ) (j0 j1 : ℕ)
    (hj0 : j0 < n) (hj1 : j1 < n)
    (hlow : ∀ j, j < n → f j0 ≤ f j) (hhigh : ∀ j, j < n → f j ≤ f j1) :
    minList ((List.range' 0 n).map f) = f j0 ∧
    maxList ((List.range' 0 n).map f) = f j1 ∧
    (foldMinOpt ((List.range' 0 n).map f)).getD 0 = f j0 ∧
    (0 ≤ f j1 → foldMax0 ((List.range' 0 n).map f) = f j1) := by
  have hmem0 : f j0 ∈ (List.range' 0 n).map f :=
    List.mem_map.mpr ⟨j0, List.mem_range'_1.mpr ⟨Nat.zero_le _, by omega⟩, rfl⟩
  have hmem1 : f j1 ∈ (List.range' 0 n).map f :=
    List.mem_map.mpr ⟨j1, List.mem_range'_1.mpr ⟨Nat.zero_le _, by omega⟩, rfl⟩
  have hlow' : ∀ v ∈ (List.range' 0 n).map f, f j0 ≤ v := by
    intro v hv
    obtain ⟨j, hj, rfl⟩ := List.mem_map.mp hv
    exact hlow j (by have := List.mem_range'_1.mp hj; omega)
  have hhigh' : ∀ v ∈ (List.range' 0 n).map f, v ≤ f j1 := by
    intro v hv
    obtain ⟨j, hj, rfl⟩ := List.mem_map.mp hv
    exact hhigh j (by have := List.mem_range'_1.mp hj; omega)
  refine ⟨minList_eq _ _ hmem0 hlow', maxList_eq _ _ hmem1 hhigh', ?_, ?_⟩
  · cases hl : (List.range' 0 n).map f with
    | nil =>
      rw [hl] at hmem0
      cases hmem0
    | cons a l =>
      rw [foldMinOpt_getD, ← hl]
      exact minList_eq _ _ hmem0 hlow'
  · intro hpos
    exact foldMax0_eq _ _ hpos hmem1 hhigh'

lemma shifted_lists (cols : ℕ) (IW HG IH VG oX oY IHval : ℚ) (items : List GridItem)
    (hasp : ∀ it ∈ items,
      ((jsRound (IW * it.textureHeight / it.textureWidth) : ℤ) : ℚ) = IHval) :
    ((placeMap cols IW HG IH VG items 0).map
        (fun it => it.textureObject.x - oX) =
      (List.range' 0 items.length).map
        (fun j => ((j % cols : ℕ) : ℚ) * (IW + HG) - oX)) ∧
    ((placeMap cols IW HG IH VG items 0).map
        (fun it => it.textureObject.x - oX + it.textureObject.displayWidth) =
      (List.range' 0 items.length).map
        (fun j => ((j % cols : ℕ) : ℚ) * (IW + HG) - oX + IW)) ∧
    ((placeMap cols IW HG IH VG items 0).map
        (fun it => it.textureObject.y - oY) =
      (List.range' 0 items.length).map
        (fun j => ((j / cols : ℕ) : ℚ) * (IH + VG) - oY)) ∧
    ((placeMap cols IW HG IH VG items 0).map
        (fun it => it.textureObject.y - oY + it.textureObject.displayHeight) =
      (List.range' 0 items.length).map
        (fun j => ((j / cols : ℕ) : ℚ) * (IH + VG) - oY + IHval)) := by
  refine ⟨?_, ?_, ?_, ?_⟩
  · have h1 : (placeMap cols IW HG IH VG items 0).map
        (fun it => it.textureObject.x - oX) =
        ((placeMap cols IW HG IH VG items 0).map
          (fun it => it.textureObject.x)).map (fun v => v - oX) := by
      rw [List.map_map]
      rfl
    rw [h1, placeMap_map_x, List.map_map]
    rfl
  · have hcong : (placeMap cols IW HG IH VG items 0).map
        (fun it => it.textureObject.x - oX + it.textureObject.displayWidth) =
        (placeMap cols IW HG IH VG items 0).map
          (fun it => it.textureObject.x - oX + IW) :=
      List.map_congr_left (fun it' hit' => by
        rw [placeMap_displayWidth cols IW HG IH VG items 0 it' hit'])
    have h1 : (placeMap cols IW HG IH VG items 0).map
        (fun it => it.textureObject.x - oX + IW) =
        ((placeMap cols IW HG IH VG items 0).map
          (fun it => it.textureObject.x)).map (fun v => v - oX + IW) := by
      rw [List.map_map]
      rfl
    rw [hcong, h1, placeMap_map_x, List.map_map]
    rfl
  · have h1 : (placeMap cols IW HG IH VG items 0).map
        (fun it => it.textureObject.y - oY) =
        ((placeMap cols IW HG IH VG items 0).map
          (fun it => it.textureObject.y)).map (fun v => v - oY) := by
      rw [List.map_map]
      rfl
    rw [h1, placeMap_map_y, List.map_map]
    rfl
  · have hcong : (placeMap cols IW HG IH VG items 0).map
        (fun it => it.textureObject.y - oY + it.textureObject.displayHeight) =
        (placeMap cols IW HG IH VG items 0).map
          (fun it => it.textureObject.y - oY + IHval) :=
      List.map_congr_left (fun it' hit' => by
        rw [placeMap_displayHeight cols IW HG IH VG IHval items hasp 0 it' hit'])
    have h1 : (placeMap cols IW HG IH VG items 0).map
        (fun it => it.textureObject.y - oY + IHval) =
        ((placeMap cols IW HG IH VG items 0).map
          (fun it => it.textureObject.y)).map (fun v => v - oY + IHval) := by
      rw [List.map_map]
      rfl
    rw [hcong, h1, placeMap_map_y, List.map_map]
    rfl

lemma setSizeItemsDefault_center (cols rows : ℕ) (IW HG IH VG W H : ℚ)
    (hc1 : 1 ≤ cols) (hr1 : 1 ≤ rows)
    (hsx : 0 ≤ IW + HG) (hsy : 0 ≤ IH + VG)
    (items : List GridItem) (hlen : items.length = rows * cols)
    (hasp : ∀ it ∈ items,
      ((jsRound (IW * it.textureHeight / it.textureWidth) : ℤ) : ℚ) = IH) :
    contentBBoxCenter (setSizeItemsDefault cols IW HG IH VG W H items).items =
      (W / 2, H / 2) := by
  have hcols : 0 < cols := hc1
  have hrows : 0 < rows := hr1
  have hpm : placeLoop cols IW HG IH VG items 0 (-1) 0 0 =
      placeMap cols IW HG IH VG items 0 := by
    apply placeLoop_eq_placeMap
    · intro _
      simp
    · intro h
      exact absurd (Nat.zero_mod cols) h
  have hnpos : 0 < items.length := by
    rw [hlen]; exact Nat.mul_pos hrows hcols
  have hcn : cols - 1 < items.length := by
    rw [hlen]
    have h := Nat.le_mul_of_pos_left cols hrows
    omega
  have hrn : (rows - 1) * cols < items.length := by
    rw [hlen]
    exact (Nat.mul_lt_mul_right hcols).mpr (by omega)
  have hmodle : ∀ j : ℕ, j % cols ≤ cols - 1 := by
    intro j
    have := Nat.mod_lt j hcols
    omega
  have hmodmax : (cols - 1) % cols = cols - 1 := Nat.mod_eq_of_lt (by omega)
  have hdivmax : (rows - 1) * cols / cols = rows - 1 := Nat.mul_div_cancel (rows - 1) hcols
  have hdivle : ∀ j : ℕ, j < items.length → j / cols ≤ rows - 1 := by
    intro j hj
    have h2 : j / cols ≤ (items.length - 1) / cols := Nat.div_le_div_right (by omega)
    have h3 : (items.length - 1) / cols = rows - 1 := by
      obtain ⟨r', hr'⟩ : ∃ r', rows = r' + 1 := ⟨rows - 1, by omega⟩
      have hsubst : items.length = cols * r' + cols := by
        rw [hlen, hr']; ring
      have hsub1 : items.length - 1 = (cols - 1) + cols * r' := by
        rw [hsubst]
        generalize cols * r' = b
        omega
      rw [hsub1, Nat.add_mul_div_left _ _ hcols, Nat.div_eq_of_lt (by omega), hr']
      omega
    omega
  have hcast0x : ((0 % cols : ℕ) : ℚ) * (IW + HG) = 0 := by simp
  have hcastmx : (((cols - 1) % cols : ℕ) : ℚ) * (IW + HG) =
      ((cols : ℚ) - 1) * (IW + HG) := by
    rw [hmodmax, Nat.cast_sub hc1, Nat.cast_one]
  have hcast0y : ((0 / cols : ℕ) : ℚ) * (IH + VG) = 0 := by simp
  have hcastmy : (((rows - 1) * cols / cols : ℕ) : ℚ) * (IH + VG) =
      ((rows : ℚ) - 1) * (IH + VG) := by
    rw [hdivmax, Nat.cast_sub hr1, Nat.cast_one]
  have hlowx : ∀ j, j < items.length →
      ((0 % cols : ℕ) : ℚ) * (IW + HG) ≤ ((j % cols : ℕ) : ℚ) * (IW + HG) := by
    intro j _
    rw [hcast0x]
    exact mul_nonneg (Nat.cast_nonneg _) hsx
  have hhighx : ∀ j, j < items.length →
      ((j % cols : ℕ) : ℚ) * (IW + HG) ≤
        (((cols - 1) % cols : ℕ) : ℚ) * (IW + HG) := by
    intro j _
    have hle : ((j % cols : ℕ) : ℚ) ≤ (((cols - 1) % cols : ℕ) : ℚ) := by
      rw [hmodmax]
      exact_mod_cast hmodle j
    exact mul_le_mul_of_nonneg_right hle hsx
  have hlowy : ∀ j, j < items.length →
      ((0 / cols : ℕ) : ℚ) * (IH + VG) ≤ ((j / cols : ℕ) : ℚ) * (IH + VG) := by
    intro j _
    rw [hcast0y]
    exact mul_nonneg (Nat.cast_nonneg _) hsy
  have hhighy : ∀ j, j < items.length →
      ((j / cols : ℕ) : ℚ) * (IH + VG) ≤
        (((rows - 1) * cols / cols : ℕ) : ℚ) * (IH + VG) := by
    intro j hj
    have hle : ((j / cols : ℕ) : ℚ) ≤ (((rows - 1) * cols / cols : ℕ) : ℚ) := by
      rw [hdivmax]
      exact_mod_cast hdivle j hj
    exact mul_le_mul_of_nonneg_right hle hsy
  have hxP := placeMap_map_x cols IW HG IH VG items 0
  have hyP := placeMap_map_y cols IW HG IH VG items 0
  have mmx := mapped_range'_min_max items.length
    (fun j => ((j % cols : ℕ) : ℚ) * (IW + HG)) 0 (cols - 1) hnpos hcn hlowx hhighx
  have mmy := mapped_range'_min_max items.length
    (fun j => ((j / cols : ℕ) : ℚ) * (IH + VG)) 0 ((rows - 1) * cols) hnpos hrn hlowy hhighy
  have hposx : (0 : ℚ) ≤ (((cols - 1) % cols : ℕ) : ℚ) * (IW + HG) := by
    rw [hcastmx]
    have hcge : (1 : ℚ) ≤ (cols : ℚ) := by exact_mod_cast hc1
    exact mul_nonneg (by linarith) hsx
  have hposy : (0 : ℚ) ≤ (((rows - 1) * cols / cols : ℕ) : ℚ) * (IH + VG) := by
    rw [hcastmy]
    have hrge : (1 : ℚ) ≤ (rows : ℚ) := by exact_mod_cast hr1
    exact mul_nonneg (by linarith) hsy
  have hdw : (getTotalDimensionsItems IW HG IH VG
      (placeMap cols IW HG IH VG items 0)).width =
      ((cols : ℚ) - 1) * (IW + HG) + (IW + HG) := by
    have hW0 : (getTotalDimensionsItems IW HG IH VG
        (placeMap cols IW HG IH VG items 0)).width =
        foldMax0 ((placeMap cols IW HG IH VG items 0).map
          fun it => it.textureObject.x) -
        (foldMinOpt ((placeMap cols IW HG IH VG items 0).map
          fun it => it.textureObject.x)).getD 0 + IW + HG := rfl
    rw [hW0, hxP, mmx.2.2.2 hposx, mmx.2.2.1]
    simp only [hcast0x, hcastmx]
    ring
  have hdh : (getTotalDimensionsItems IW HG IH VG
      (placeMap cols IW HG IH VG items 0)).height =
      ((rows : ℚ) - 1) * (IH + VG) + (IH + VG) := by
    have hH0 : (getTotalDimensionsItems IW HG IH VG
        (placeMap cols IW HG IH VG items 0)).height =
        foldMax0 ((placeMap cols IW HG IH VG items 0).map
          fun it => it.textureObject.y) -
        (foldMinOpt ((placeMap cols IW HG IH VG items 0).map
          fun it => it.textureObject.y)).getD 0 + IH + VG := rfl
    rw [hH0, hyP, mmy.2.2.2 hposy, mmy.2.2.1]
    simp only [hcast0y, hcastmy]
    ring
  rw [setSizeItemsDefault_items_eq, hpm, hdw, hdh]
  set OX := (((cols : ℚ) - 1) * (IW + HG) + (IW + HG) - HG - W) / 2 with hOX
  set OY := (((rows : ℚ) - 1) * (IH + VG) + (IH + VG) - VG - H) / 2 with hOY
  rw [contentBBoxCenter, applyCenterOffset_map_x, applyCenterOffset_map_y,
    applyCenterOffset_map_rightEdge, applyCenterOffset_map_bottomEdge]
  obtain ⟨hs1, hs2, hs3, hs4⟩ := shifted_lists cols IW HG IH VG OX OY IH items hasp
  rw [hs1, hs2, hs3, hs4]
  have mmL := mapped_range'_min_max items.length
    (fun j => ((j % cols : ℕ) : ℚ) * (IW + HG) - OX) 0 (cols - 1) hnpos hcn
    (fun j hj => by have := hlowx j hj; simp only []; linarith)
    (fun j hj => by have := hhighx j hj; simp only []; linarith)
  have mmR := mapped_range'_min_max items.length
    (fun j => ((j % cols : ℕ) : ℚ) * (IW + HG) - OX + IW) 0 (cols - 1) hnpos hcn
    (fun j hj => by have := hlowx j hj; simp only []; linarith)
    (fun j hj => by have := hhighx j hj; simp only []; linarith)
  have mmT := mapped_range'_min_max items.length
    (fun j => ((j / cols : ℕ) : ℚ) * (IH + VG) - OY) 0 ((rows - 1) * cols) hnpos hrn
    (fun j hj => by have := hlowy j hj; simp only []; linarith)
    (fun j hj => by have := hhighy j hj; simp only []; linarith)
  have mmB := mapped_range'_min_max items.length
    (fun j => ((j / cols : ℕ) : ℚ) * (IH + VG) - OY + IH) 0 ((rows - 1) * cols) hnpos hrn
    (fun j hj => by have := hlowy j hj; simp only []; linarith)
    (fun j hj => by have := hhighy j hj; simp only []; linarith)
  rw [mmL.1, mmR.2.1, mmT.1, mmB.2.1]
  simp only [Prod.mk.injEq]
  constructor
  · simp only [hcast0x, hcastmx]
    rw [hOX]
    ring
  · simp only [hcast0y, hcastmy]
    rw [hOY]
    ring

/-- Claim C4 (amended): after the default layout pass with the
constructor's metrics at pixel ratio `pr` (`ITEM_WIDTH = 90·pr`,
`ITEM_HEIGHT = 140·pr`, both gaps `10·pr`), for every grid of 1×1 up to
79×30 items all of whose display heights equal the nominal slot height
(`Math.round(ITEM_WIDTH · textureHeight / textureWidth) = ITEM_HEIGHT`),
the center of the content bounding box of the grid items coincides
exactly — not merely within sub-pixel tolerance — with the viewport
center `(W/2, H/2)`.  Without the aspect condition the horizontal
coordinate still centers exactly, but an item whose display height
differs from the slot height shifts the box's vertical center away from
`H/2` (see the counterexample). -/
theorem C4_default_layout_centered (cols rows : ℕ) (pr W H : ℚ)
    (items : List GridItem)
    (hc1 : 1 ≤ cols) (hc2 : cols ≤ 79) (hr1 : 1 ≤ rows) (hr2 : rows ≤ 30)
    (hpr : 0 < pr) (hlen : items.length = rows * cols)
    (hasp : ∀ it ∈ items,
      ((jsRound (90 * pr * it.textureHeight / it.textureWidth) : ℤ) : ℚ) = 140 * pr) :
    contentBBoxCenter
      (setSizeItemsDefault cols (90 * pr) (10 * pr) (140 * pr) (10 * pr)
        W H items).items = (W / 2, H / 2) := by
  exact setSizeItemsDefault_center cols rows (90 * pr) (10 * pr) (140 * pr) (10 * pr)
    W H hc1 hr1 (by linarith) (by linarith) items hlen hasp

/-- The single 90×280 image used in the C4 counterexample: its display
height is 280 pixels, double the 140-pixel slot height. -/
def c4Item : GridItem :=
  { textureWidth := 90
    textureHeight := 280
    textureObject :=
      { x := 0, y := 0, displayWidth := 1, displayHeight := 1, opacity := 1 }
    bounds := { left := 0, top := 0, right := 0, bottom := 0 }
    itemWidth := 0
    itemHeight := 0 }

/-- Claim C4 counterexample: a 1×1 grid (within the claimed 1×1–79×30
range) holding one 90×280 image, at pixel ratio 1 on a 1000×800 canvas.
The default layout puts the content bounding box center at (500, 470):
the vertical center misses the viewport center (500, 400) by 70 pixels,
far beyond sub-pixel tolerance — the centering offset uses the nominal
slot height, not the item's actual display height. -/
theorem C4_counterexample :
    contentBBoxCenter
      (setSizeItemsDefault 1 90 10 140 10 1000 800 [c4Item]).items = (500, 470) ∧
    |(contentBBoxCenter
      (setSizeItemsDefault 1 90 10 140 10 1000 800 [c4Item]).items).2 - 800 / 2| > 1 := by
  have h : contentBBoxCenter
      (setSizeItemsDefault 1 90 10 140 10 1000 800 [c4Item]).items = (500, 470) := by
    norm_num [setSizeItemsDefault, setSizeItemsDefault_items_eq, placeLoop,
      GridItem.updateSize, jsRound, getTotalDimensionsItems, foldMax0, foldMinOpt,
      applyCenterOffset, GridItem.updateBounds, contentBBoxCenter, minList, maxList,
      c4Item, List.foldl, List.map]
  refine ⟨h, ?_⟩
  rw [h]
  norm_num

/-- The 90×140 image used in the C4 witness: its display height equals
the slot height exactly. -/
def c4WitnessItem : GridItem :=
  { textureWidth := 90
    textureHeight := 140
    textureObject :=
      { x := 0, y := 0, displayWidth := 1, displayHeight := 1, opacity := 1 }
    bounds := { left := 0, top := 0, right := 0, bottom := 0 }
    itemWidth := 0
    itemHeight := 0 }

/-- Witness for C4: a 2×1 grid of 90×140 images at pixel ratio 1 on a
1000×800 canvas is centered exactly at (500, 400). -/
theorem C4_default_layout_centered_witness :
    contentBBoxCenter
      (setSizeItemsDefault 2 (90 * 1) (10 * 1) (140 * 1) (10 * 1) 1000 800
        [c4WitnessItem, c4WitnessItem]).items = (1000 / 2, 800 / 2) := by
  apply C4_default_layout_centered 2 1 1 1000 800 [c4WitnessItem, c4WitnessItem]
  · norm_num
  · norm_num
  · norm_num
  · norm_num
  · norm_num
  · norm_num
  · intro it hit
    fin_cases hit <;> norm_num [jsRound, c4WitnessItem]
